import Mathlib

/-!
Shallow embedding of the Google Cloud Storage client
(`src/gcp/client.rs`) of the arrow-rs object-store repository, together
with theorems settling the frozen claims about it.

The network is modelled by an explicit context `Ctx` holding the list of
wire results still to be delivered (consumed in order) and the trace of
requests dispatched so far.  Every operation is a pure function from its
inputs and a `Ctx` to an outcome and an updated `Ctx`.
-/

namespace Gcs

/-- The apostrophe character, named to keep character literals simple. -/
def aposChar : Char := Char.ofNat 39

/-- ASCII alphanumeric test used by the `NON_ALPHANUMERIC` percent-encoding set. -/
def isAsciiAlphanum (c : Char) : Bool :=
  (48 ≤ c.toNat && c.toNat ≤ 57) || (65 ≤ c.toNat && c.toNat ≤ 90) ||
    (97 ≤ c.toNat && c.toNat ≤ 122)

/-- Upper-case hex digit for a value below 16. -/
def hexUpper (n : Nat) : Char :=
  if n < 10 then Char.ofNat (48 + n) else Char.ofNat (55 + n)

/-- Lower-case hex digit for a value below 16. -/
def hexLower (n : Nat) : Char :=
  if n < 10 then Char.ofNat (48 + n) else Char.ofNat (87 + n)

/-- Modelled from the spec: the `percent_encoding` crate's
`utf8_percent_encode(_, NON_ALPHANUMERIC)` used by the client, restricted to
single-byte characters: alphanumeric ASCII passes through, everything else
becomes `%XX`. -/
def percentEncodeChar (c : Char) : List Char :=
  if isAsciiAlphanum c then [c]
  else ['%', hexUpper (c.toNat / 16 % 16), hexUpper (c.toNat % 16)]

/-- Percent-encode a whole string with the `NON_ALPHANUMERIC` set. -/
def percentEncodeNA (s : String) : String :=
  String.mk (s.toList.flatMap percentEncodeChar)

/-- Decimal digit character. -/
def digitChar (n : Nat) : Char := Char.ofNat (48 + n % 10)

/-- Fuel-driven accumulator loop producing decimal digits most-significant first. -/
def natDigitsGo : Nat → Nat → List Char → List Char
  | 0, _, acc => acc
  | fuel + 1, n, acc =>
    if n < 10 then digitChar n :: acc
    else natDigitsGo fuel (n / 10) (digitChar n :: acc)

/-- Decimal rendering of a natural number (the `format!("{}", _)` of the source). -/
def natDigits (n : Nat) : List Char := natDigitsGo (n + 1) n []

/-- Decimal rendering as a `String`. -/
def natDigitsStr (n : Nat) : String := String.mk (natDigits n)

/-- Modelled from the spec: the escaping the `quick_xml` serializer applies to
text content (the source's comment notes it cannot be disabled): the five XML
special characters become entities, all other characters pass through. -/
def xmlEscapeChar (c : Char) : List Char :=
  if c = '&' then "&amp;".toList
  else if c = '<' then "&lt;".toList
  else if c = '>' then "&gt;".toList
  else if c = '"' then "&quot;".toList
  else if c = aposChar then "&apos;".toList
  else [c]

/-- Escape every character of a text node. -/
def xmlEscape (s : List Char) : List Char := s.flatMap xmlEscapeChar

/-- The `.replace("&quot;", "\"")` fixup of `multipart_complete`: scan left to
right, replacing each non-overlapping occurrence of `&quot;` by a literal
double quote. -/
def replaceQuot : List Char → List Char
  | '&' :: 'q' :: 'u' :: 'o' :: 't' :: ';' :: rest => '"' :: replaceQuot rest
  | c :: rest => c :: replaceQuot rest
  | [] => []

/-- Character of the standard base64 alphabet at a sextet value. -/
def b64Char (n : Nat) : Char :=
  "ABCDEFGHIJKLMNOPQRSTUVWXYZabcdefghijklmnopqrstuvwxyz0123456789+/".toList.getD n 'A'

/-- Modelled from the spec: standard base64 encoding with padding
(`BASE64_STANDARD.encode`), over byte lists. -/
def base64Encode : List Nat → List Char
  | [] => []
  | [a] => [b64Char (a / 4 % 64), b64Char (a % 4 * 16), '=', '=']
  | [a, b] => [b64Char (a / 4 % 64), b64Char (a % 4 * 16 + b / 16 % 16), b64Char (b % 16 * 4), '=']
  | a :: b :: c :: rest =>
    b64Char (a / 4 % 64) :: b64Char (a % 4 * 16 + b / 16 % 16) ::
      b64Char (b % 16 * 4 + c / 64 % 4) :: b64Char (c % 64) :: base64Encode rest

/-- Index of a character in the base64 alphabet, `none` when absent. -/
def b64Index (c : Char) : Option Nat :=
  let rec go : List Char → Nat → Option Nat
    | [], _ => none
    | a :: rest, i => if a = c then some i else go rest (i + 1)
  go "ABCDEFGHIJKLMNOPQRSTUVWXYZabcdefghijklmnopqrstuvwxyz0123456789+/".toList 0

/-- Modelled from the spec: standard base64 decoding with padding
(`BASE64_STANDARD.decode`); `none` signals a decode failure. -/
def base64Decode : List Char → Option (List Nat)
  | [] => some []
  | [w, x, '=', '='] => do
    let a ← b64Index w
    let b ← b64Index x
    if b % 16 = 0 then some [a * 4 + b / 16] else none
  | [w, x, y, '='] => do
    let a ← b64Index w
    let b ← b64Index x
    let c ← b64Index y
    if c % 4 = 0 then some [a * 4 + b / 16, b % 16 * 16 + c / 4] else none
  | w :: x :: y :: z :: rest => do
    let a ← b64Index w
    let b ← b64Index x
    let c ← b64Index y
    let d ← b64Index z
    let tl ← base64Decode rest
    some ((a * 4 + b / 16) :: (b % 16 * 16 + c / 4) :: (c % 4 * 64 + d) :: tl)
  | _ => none

/-- Modelled from the spec: `crate::util::hex_encode`, lower-case hex of a
byte list. -/
def hex_encode (bs : List Nat) : String :=
  String.mk (bs.flatMap fun b => [hexLower (b / 16 % 16), hexLower (b % 16)])

/-- Object paths are plain strings (`crate::path::Path` renders as its raw form). -/
abbrev Path := String

/-- A payload is its byte content (`PutPayload`); may be empty. -/
structure Payload where
  bytes : List Nat
deriving Repr, DecidableEq

/-- `PutPayload::new()`: the empty payload. -/
def Payload.new : Payload := ⟨[]⟩

/-- `PutPayload::content_length`. -/
def Payload.content_length (p : Payload) : Nat := p.bytes.length

/-- `UpdateVersion`: expected etag / version of an `Update`-mode put. -/
structure UpdateVersion where
  e_tag : Option String
  version : Option String
deriving Repr, DecidableEq

/-- `PutMode`: overwrite unconditionally, create-only, or version-matched update. -/
inductive PutMode where
  | Overwrite
  | Create
  | Update (v : UpdateVersion)
deriving Repr, DecidableEq

/-- `PutResult`: server-assigned identity of a written object. -/
structure PutResult where
  e_tag : Option String
  version : Option String
deriving Repr, DecidableEq

/-- `PartId`: identifier of one uploaded multipart part. -/
structure PartId where
  content_id : String
deriving Repr, DecidableEq

/-- A retry-engine failure: the final HTTP status (when one was received)
and an opaque token standing for the boxed source error. -/
structure RetryError where
  status : Option Nat
  tag : String
deriving Repr, DecidableEq

/-- The client's tagged error set (the `Error` enum of `gcp/client.rs`),
restricted to the variants the modelled operations produce. -/
inductive GcsError where
  | MissingVersion
  | Metadata (tag : String)
  | InvalidPutRequest (tag : String)
  | InvalidMultipartResponse (tag : String)
  | CompleteMultipartRequest (e : RetryError)
  | SignBlobRequest (e : RetryError)
  | InvalidSignBlobResponse (tag : String)
  | InvalidSignBlobSignature (tag : String)
deriving Repr, DecidableEq

/-- The caller-visible error model (`crate::Error`), restricted to the
variants reachable from this client. -/
inductive CrateError where
  | Precondition (path source : String)
  | AlreadyExists (path source : String)
  | NotFound (path source : String)
  | Other (store path source : String)
  | Generic (store : String) (err : GcsError)
deriving Repr, DecidableEq

/-- The store label of this backend. -/
def STORE : String := "GCS"

/-- Modelled from the spec: the retry engine's `RetryError::error(store, path)`
status mapping (`crate::client::retry`, not under `src/`): HTTP 412 becomes a
precondition failure carrying the path, 404 becomes not-found, anything else a
generic store error. -/
def RetryError.toCrate (store path : String) (e : RetryError) : CrateError :=
  match e.status with
  | some 412 => .Precondition path e.tag
  | some 404 => .NotFound path e.tag
  | _ => .Other store path e.tag

/-- A bearer credential (`GcpCredential`). -/
structure GcpCredential where
  bearer : String
deriving Repr, DecidableEq

/-- The external credential provider, modelled as always yielding its
current credential. -/
structure GcpCredentialProvider where
  cred : GcpCredential
deriving Repr, DecidableEq

/-- `CredentialProvider::get_credential`. -/
def GcpCredentialProvider.get_credential (p : GcpCredentialProvider) : GcpCredential :=
  p.cred

/-- The separate signing-credential provider (only its identity matters here). -/
structure GcpSigningCredentialProvider where
  email : String
deriving Repr, DecidableEq

/-- `RetryConfig`: opaque to this client, passed through to the engine. -/
structure RetryConfig where
  max_retries : Nat := 0
deriving Repr, DecidableEq

/-- Modelled from the spec: `ClientOptions` exposes a per-path content-type
lookup used to fill a default `content-type` header. -/
structure ClientOptions where
  contentType : Path → Option String

/-- `GoogleCloudStorageConfig`. -/
structure GoogleCloudStorageConfig where
  base_url : String
  credentials : GcpCredentialProvider
  signing_credentials : GcpSigningCredentialProvider
  bucket_name : String
  retry_config : RetryConfig
  client_options : ClientOptions
  skip_signature : Bool

/-- `GoogleCloudStorageConfig::path_url`. -/
def GoogleCloudStorageConfig.path_url (c : GoogleCloudStorageConfig) (path : Path) : String :=
  c.base_url ++ "/" ++ c.bucket_name ++ "/" ++ path

/-- `GoogleCloudStorageConfig::get_credential`: `none` exactly when
signature-skipping is enabled, otherwise the provider's credential. -/
def GoogleCloudStorageConfig.get_credential (c : GoogleCloudStorageConfig) :
    Option GcpCredential :=
  match c.skip_signature with
  | false => some c.credentials.get_credential
  | true => none

/-- Body of the blob-signing request (`SignBlobBody`). -/
structure SignBlobBody where
  payload : List Char
deriving Repr, DecidableEq

/-- One dispatched HTTP request as seen by the transport / retry engine.
`idempotent = none` means the request was sent without an explicit
idempotency marker (`send_retry`); `some b` records an explicit marker. -/
structure SentRequest where
  method : String
  url : String
  headers : List (String × String)
  query : List (String × String)
  payload : Option Payload := none
  textBody : Option (List Char) := none
  jsonBody : Option SignBlobBody := none
  idempotent : Option Bool := none

/-- A wire-level response: status, headers, body text. -/
structure HttpResponse where
  status : Nat
  headers : List (String × String)
  body : List Char

/-- One wire outcome: a response, or a retry-engine failure. -/
abbrev WireResult := Except RetryError HttpResponse

/-- The execution context: wire results still to be delivered (in order)
and the trace of requests dispatched so far. -/
structure Ctx where
  world : List WireResult
  trace : List SentRequest

/-- Dispatch one request: consume the next wire result (a retry failure
with no status when the world is exhausted) and append to the trace. -/
def Ctx.step (c : Ctx) (s : SentRequest) : WireResult × Ctx :=
  match c.world with
  | [] => (.error { status := none, tag := "no response" }, ⟨[], c.trace ++ [s]⟩)
  | r :: rest => (r, ⟨rest, c.trace ++ [s]⟩)

/-- Case-insensitive-free header lookup (headers are stored lower-case). -/
def lookupHeader (hs : List (String × String)) (k : String) : Option String :=
  (hs.find? fun kv => kv.1 = k).map (·.2)

/-- Append a bearer-auth header when a credential is present
(`with_bearer_auth(credential.as_deref())`). -/
def withBearerAuthOpt (hs : List (String × String)) :
    Option GcpCredential → List (String × String)
  | none => hs
  | some cr => hs ++ [("authorization", "Bearer " ++ cr.bearer)]

/-- Response version header (`x-goog-generation`). -/
def VERSION_HEADER : String := "x-goog-generation"

/-- Default content type attached when no attribute and no per-path value apply. -/
def DEFAULT_CONTENT_TYPE : String := "application/octet-stream"

/-- Prefix of user-defined metadata headers (`x-goog-meta-`). -/
def USER_DEFINED_METADATA_HEADER : String := "x-goog-meta-"

/-- Generation-precondition request header (`x-goog-if-generation-match`). -/
def VERSION_MATCH : String := "x-goog-if-generation-match"

/-- `Attribute`: the closed set of put attributes. -/
inductive Attribute where
  | CacheControl
  | ContentDisposition
  | ContentEncoding
  | ContentLanguage
  | ContentType
  | Metadata (k_suffix : String)
deriving Repr, DecidableEq

/-- `Attributes`: attribute/value pairs in insertion order. -/
abbrev Attributes := List (Attribute × String)

/-- The generic HTTP request builder state accumulated before dispatch. -/
structure HttpRequestBuilder where
  method : String
  url : String
  headers : List (String × String) := []
  query : List (String × String) := []
  textBody : Option (List Char) := none
  jsonBody : Option SignBlobBody := none
  extensions : List String := []

/-- `HttpRequestBuilder::header`. -/
def HttpRequestBuilder.header (b : HttpRequestBuilder) (k v : String) : HttpRequestBuilder :=
  { b with headers := b.headers ++ [(k, v)] }

/-- `HttpRequestBuilder::query`: append structured query parameters. -/
def HttpRequestBuilder.queryAdd (b : HttpRequestBuilder) (q : List (String × String)) :
    HttpRequestBuilder :=
  { b with query := b.query ++ q }

/-- `HttpRequestBuilder::extensions`. -/
def HttpRequestBuilder.withExtensions (b : HttpRequestBuilder) (e : List String) :
    HttpRequestBuilder :=
  { b with extensions := e }

/-- The put-style request builder (`Request<'a>` of `gcp/client.rs`). -/
structure Request where
  path : Path
  config : GoogleCloudStorageConfig
  payload : Option Payload
  builder : HttpRequestBuilder
  idempotent : Bool

/-- `Request::header`. -/
def Request.header (r : Request) (k v : String) : Request :=
  { r with builder := r.builder.header k v }

/-- `Request::query`. -/
def Request.queryAdd (r : Request) (q : List (String × String)) : Request :=
  { r with builder := r.builder.queryAdd q }

/-- `Request::idempotent`. -/
def Request.withIdempotent (r : Request) (b : Bool) : Request :=
  { r with idempotent := b }

/-- One step of `Request::with_attributes`: apply an attribute to the
builder, tracking whether a content type was set. -/
def applyAttr (st : HttpRequestBuilder × Bool) (kv : Attribute × String) :
    HttpRequestBuilder × Bool :=
  match kv.1 with
  | .CacheControl => (st.1.header "cache-control" kv.2, st.2)
  | .ContentDisposition => (st.1.header "content-disposition" kv.2, st.2)
  | .ContentEncoding => (st.1.header "content-encoding" kv.2, st.2)
  | .ContentLanguage => (st.1.header "content-language" kv.2, st.2)
  | .ContentType => (st.1.header "content-type" kv.2, true)
  | .Metadata k_suffix => (st.1.header (USER_DEFINED_METADATA_HEADER ++ k_suffix) kv.2, st.2)

/-- `Request::with_attributes`: translate attributes to headers; when no
content type was among them, fill the per-path default. -/
def Request.with_attributes (r : Request) (attributes : Attributes) : Request :=
  let st := attributes.foldl applyAttr (r.builder, false)
  let builder :=
    if st.2 then st.1
    else st.1.header "content-type"
      ((r.config.client_options.contentType r.path).getD DEFAULT_CONTENT_TYPE)
  { r with builder }

/-- `Request::with_payload`: record the payload and its `Content-Length`. -/
def Request.with_payload (r : Request) (payload : Payload) : Request :=
  { r with
    builder := r.builder.header "content-length" (natDigitsStr payload.content_length),
    payload := some payload }

/-- `Request::with_extensions`. -/
def Request.with_extensions (r : Request) (e : List String) : Request :=
  { r with builder := r.builder.withExtensions e }

/-- The request `Request::send` hands to the retry engine: the accumulated
builder state, the payload, the idempotency marker, and bearer auth taken
directly from the provider (`self.config.credentials.get_credential()`). -/
def Request.sentRequest (r : Request) : SentRequest :=
  { method := r.builder.method
    url := r.builder.url
    headers := r.builder.headers ++
      [("authorization", "Bearer " ++ r.config.credentials.get_credential.bearer)]
    query := r.builder.query
    payload := r.payload
    textBody := r.builder.textBody
    jsonBody := r.builder.jsonBody
    idempotent := some r.idempotent }

/-- `Request::send`: resolve the credential directly from the provider,
attach bearer auth, dispatch with the idempotency marker, and map a retry
failure through `Error::Request { path }` into the caller-visible error. -/
def Request.send (r : Request) (ctx : Ctx) : Except CrateError HttpResponse × Ctx :=
  match ctx.step r.sentRequest with
  | (.ok resp, ctx') => (.ok resp, ctx')
  | (.error e, ctx') => (.error (e.toCrate STORE r.path), ctx')

/-- Modelled from the spec: `get_put_result` (`crate::client::header`, not
under `src/`): the etag header is required — its absence is a metadata
error — and the backend version header is optional. -/
def get_put_result (headers : List (String × String)) (versionHeader : String) :
    Except String PutResult :=
  match lookupHeader headers "etag" with
  | none => .error "etag not present in response"
  | some t => .ok { e_tag := some t, version := lookupHeader headers versionHeader }

/-- Modelled from the spec: `get_version` (`crate::client::header`): the
optional backend version header of a response. -/
def get_version (headers : List (String × String)) (versionHeader : String) :
    Option String :=
  lookupHeader headers versionHeader

/-- `Request::do_put`: send, then extract a `PutResult` from the response
headers, failing with a tagged metadata error when they are incomplete. -/
def Request.do_put (r : Request) (ctx : Ctx) : Except CrateError PutResult × Ctx :=
  match r.send ctx with
  | (.error e, ctx') => (.error e, ctx')
  | (.ok resp, ctx') =>
    match get_put_result resp.headers VERSION_HEADER with
    | .error s => (.error (.Generic STORE (.Metadata s)), ctx')
    | .ok pr => (.ok pr, ctx')

/-- `PutOptions` (tags and copy-and-append are unsupported by this backend
and discarded by the operation). -/
structure PutOptions where
  mode : PutMode := .Overwrite
  attributes : Attributes := []
  extensions : List String := []

/-- `PutOptions::default()`: an unconditional overwrite with no attributes. -/
instance : Inhabited PutOptions := ⟨{}⟩

/-- The operation client (`GoogleCloudStorageClient`). -/
structure GoogleCloudStorageClient where
  config : GoogleCloudStorageConfig
  bucket_name_encoded : String

/-- `GoogleCloudStorageClient::new`: percent-encodes the bucket name once. -/
def GoogleCloudStorageClient.new (config : GoogleCloudStorageConfig) :
    GoogleCloudStorageClient :=
  { config, bucket_name_encoded := percentEncodeNA config.bucket_name }

/-- `GoogleCloudStorageClient::get_credential` (skip-signature aware). -/
def GoogleCloudStorageClient.get_credential (c : GoogleCloudStorageClient) :
    Option GcpCredential :=
  c.config.get_credential

/-- `GoogleCloudStorageClient::object_url`. -/
def GoogleCloudStorageClient.object_url (c : GoogleCloudStorageClient) (path : Path) :
    String :=
  c.config.base_url ++ "/" ++ c.bucket_name_encoded ++ "/" ++ percentEncodeNA path

/-- `GoogleCloudStorageClient::request`: a fresh put-style builder,
initially non-idempotent. -/
def GoogleCloudStorageClient.request (c : GoogleCloudStorageClient) (method : String)
    (path : Path) : Request :=
  { path
    config := c.config
    payload := none
    builder := { method, url := c.object_url path }
    idempotent := false }

/-- The mode dispatch of `put` (source lines 401–408): `Overwrite` marks the
request idempotent, `Create` adds the generation-must-equal-0 header,
`Update` adds the expected version or fails locally with `MissingVersion`. -/
def putModeBuilder (builder : Request) (mode : PutMode) : Except GcsError Request :=
  match mode with
  | .Overwrite => .ok (builder.withIdempotent true)
  | .Create => .ok (builder.header VERSION_MATCH "0")
  | .Update v =>
    match v.version with
    | none => .error .MissingVersion
    | some etag => .ok (builder.header VERSION_MATCH etag)

/-- The post-execution remap of `put` (source lines 410–415): a `Create`-mode
precondition failure becomes already-exists; everything else passes through. -/
def putRemap (mode : PutMode) (r : Except CrateError PutResult) :
    Except CrateError PutResult :=
  match mode, r with
  | .Create, .error (.Precondition path source) => .error (.AlreadyExists path source)
  | _, r => r

/-- `GoogleCloudStorageClient::put`. -/
def GoogleCloudStorageClient.put (c : GoogleCloudStorageClient) (path : Path)
    (payload : Payload) (opts : PutOptions) (ctx : Ctx) :
    Except CrateError PutResult × Ctx :=
  let builder := (((c.request "PUT" path).with_payload payload).with_attributes
    opts.attributes).with_extensions opts.extensions
  match putModeBuilder builder opts.mode with
  | .error e => (.error (.Generic STORE e), ctx)
  | .ok b => (putRemap opts.mode (b.do_put ctx).1, (b.do_put ctx).2)

/-- Outcome of a call that may hit an unrecoverable programming-contract
violation (`Option::unwrap` on a missing value) instead of returning. -/
inductive PanicOr (α : Type) where
  | panicked
  | value (a : α)
deriving Repr, DecidableEq

/-- `GoogleCloudStorageClient::put_part`: PUT tagged with the 1-based part
number and session id, marked idempotent; builds the `PartId` by unwrapping
the response etag. -/
def GoogleCloudStorageClient.put_part (c : GoogleCloudStorageClient) (path : Path)
    (upload_id : String) (part_idx : Nat) (data : Payload) (ctx : Ctx) :
    PanicOr (Except CrateError PartId) × Ctx :=
  let query := [("partNumber", natDigitsStr (part_idx + 1)), ("uploadId", upload_id)]
  let req := (((c.request "PUT" path).with_payload data).queryAdd query).withIdempotent true
  match req.do_put ctx with
  | (.error e, ctx') => (.value (.error e), ctx')
  | (.ok result, ctx') =>
    match result.e_tag with
    | none => (.panicked, ctx')
    | some t => (.value (.ok { content_id := t }), ctx')

/-- `GoogleCloudStorageClient::delete_request`. -/
def GoogleCloudStorageClient.delete_request (c : GoogleCloudStorageClient) (path : Path)
    (ctx : Ctx) : Except CrateError Unit × Ctx :=
  match (c.request "DELETE" path).send ctx with
  | (.error e, ctx') => (.error e, ctx')
  | (.ok _, ctx') => (.ok (), ctx')

/-- `GoogleCloudStorageClient::multipart_cleanup`: DELETE tagged with the
session id, dispatched via `send_retry` (no explicit idempotency marker). -/
def GoogleCloudStorageClient.multipart_cleanup (c : GoogleCloudStorageClient)
    (path : Path) (multipart_id : String) (ctx : Ctx) :
    Except CrateError Unit × Ctx :=
  let credential := c.get_credential
  let url := c.object_url path
  let sent : SentRequest :=
    { method := "DELETE"
      url
      headers := withBearerAuthOpt [] credential ++
        [("content-type", "application/octet-stream"), ("content-length", "0")]
      query := [("uploadId", multipart_id)]
      idempotent := none }
  match ctx.step sent with
  | (.ok _, ctx') => (.ok (), ctx')
  | (.error e, ctx') => (.error (e.toCrate STORE path), ctx')

/-- One part entry of the completion document (`MultipartPart` of
`crate::client::s3`). -/
structure MultipartPart where
  e_tag : String
  part_number : Nat
deriving Repr, DecidableEq

/-- The completion document (`CompleteMultipartUpload`). -/
structure CompleteMultipartUpload where
  part : List MultipartPart
deriving Repr, DecidableEq

/-- Modelled from the spec: `CompleteMultipartUpload::from(Vec<PartId>)`
(`crate::client::s3`, not under `src/`): parts in caller order, 1-based
part numbers, etags taken from the `PartId` content ids. -/
def CompleteMultipartUpload.fromParts (parts : List PartId) : CompleteMultipartUpload :=
  ⟨parts.enum.map fun ip => { e_tag := ip.2.content_id, part_number := ip.1 + 1 }⟩

/-- Modelled from the spec: the `quick_xml` serialization of one part entry;
text nodes are escaped with the serializer's non-configurable escaping. -/
def serializeMultipartPart (p : MultipartPart) : List Char :=
  "<Part><ETag>".toList ++ xmlEscape p.e_tag.toList ++ "</ETag><PartNumber>".toList ++
    natDigits p.part_number ++ "</PartNumber></Part>".toList

/-- Modelled from the spec: the `quick_xml` serialization of the completion
document. -/
def serializeCompleteMultipartUpload (u : CompleteMultipartUpload) : List Char :=
  "<CompleteMultipartUpload>".toList ++ u.part.flatMap serializeMultipartPart ++
    "</CompleteMultipartUpload>".toList

/-- Modelled from the spec: parsing of the backend's completion response
(`CompleteMultipartUploadResult`): the final object etag is the text between
the first pair of `<ETag>` markers; `none` is a decode failure. -/
def parseCompleteMultipartResult (body : List Char) : Option String :=
  let rec go : List Char → Option (List Char)
    | '<' :: 'E' :: 'T' :: 'a' :: 'g' :: '>' :: rest => some rest
    | _ :: rest => go rest
    | [] => none
  let rec take : List Char → Option (List Char)
    | '<' :: _ => some []
    | c :: rest => (take rest).map (c :: ·)
    | [] => none
  match go body with
  | none => none
  | some rest => (take rest).map String.mk

/-- `GoogleCloudStorageClient::multipart_complete`: zero parts triggers the
cleanup-then-empty-put fallback; otherwise the completion document is
serialized, the `&quot;` fixup applied, and the result decoded from the
response headers and body. -/
def GoogleCloudStorageClient.multipart_complete (c : GoogleCloudStorageClient)
    (path : Path) (multipart_id : String) (completed_parts : List PartId) (ctx : Ctx) :
    Except CrateError PutResult × Ctx :=
  if completed_parts.isEmpty then
    match c.multipart_cleanup path multipart_id ctx with
    | (.error e, ctx') => (.error e, ctx')
    | (.ok _, ctx') => c.put path Payload.new default ctx'
  else
    let upload_id := multipart_id
    let url := c.object_url path
    let upload_info := CompleteMultipartUpload.fromParts completed_parts
    let credential := c.get_credential
    let data := replaceQuot (serializeCompleteMultipartUpload upload_info)
    let sent : SentRequest :=
      { method := "POST"
        url
        headers := withBearerAuthOpt [] credential
        query := [("uploadId", upload_id)]
        textBody := some data
        idempotent := some true }
    match ctx.step sent with
    | (.error e, ctx') => (.error (.Generic STORE (.CompleteMultipartRequest e)), ctx')
    | (.ok resp, ctx') =>
      let version := get_version resp.headers VERSION_HEADER
      match parseCompleteMultipartResult resp.body with
      | none => (.error (.Generic STORE (.InvalidMultipartResponse "bad body")), ctx')
      | some etag => (.ok { e_tag := some etag, version }, ctx')

/-- Modelled from the spec: the JSON rendering of the signing response is
`\x7b"signedBlob":"<sig>"\x7d`; the parser recovers the signature text. -/
def parseSignBlobResponse (body : List Char) : Option (List Char) :=
  let pre := "\x7b\"signedBlob\":\"".toList
  let suf := "\"\x7d".toList
  let rec strip : List Char → List Char → Option (List Char)
    | [], rest => some rest
    | p :: ps, c :: cs => if p = c then strip ps cs else none
    | _ :: _, [] => none
  match strip pre body with
  | none => none
  | some rest =>
    match strip suf.reverse rest.reverse with
    | none => none
    | some mid => some mid.reverse

/-- `GoogleCloudStorageClient::sign_blob`: POST the base64-encoded payload as
JSON to the external signing endpoint (idempotent), then base64-decode and
hex-encode the returned signature. The input is given as its byte list. -/
def GoogleCloudStorageClient.sign_blob (c : GoogleCloudStorageClient)
    (string_to_sign : List Nat) (client_email : String) (ctx : Ctx) :
    Except CrateError String × Ctx :=
  let credential := c.get_credential
  let body : SignBlobBody := { payload := base64Encode string_to_sign }
  let url := "https://iamcredentials.googleapis.com/v1/projects/-/serviceAccounts/" ++
    client_email ++ ":signBlob"
  let sent : SentRequest :=
    { method := "POST"
      url
      headers := withBearerAuthOpt [] credential
      query := []
      jsonBody := some body
      idempotent := some true }
  match ctx.step sent with
  | (.error e, ctx') => (.error (.Generic STORE (.SignBlobRequest e)), ctx')
  | (.ok resp, ctx') =>
    match parseSignBlobResponse resp.body with
    | none => (.error (.Generic STORE (.InvalidSignBlobResponse "bad body")), ctx')
    | some signed_blob =>
      match base64Decode signed_blob with
      | none => (.error (.Generic STORE (.InvalidSignBlobSignature "decode failure")), ctx')
      | some bytes => (.ok (hex_encode bytes), ctx')

/-- `GoogleCloudStorageClient::copy_request`: PUT to the destination with the
copy-source header; `if_not_exists` adds the generation-must-equal-0 header
and clears the idempotency marker; a 412 failure is remapped to
already-exists keyed by the destination, all other failures are tagged with
the percent-encoded source. -/
def GoogleCloudStorageClient.copy_request (c : GoogleCloudStorageClient)
    (fromPath toPath : Path) (if_not_exists : Bool) (ctx : Ctx) :
    Except CrateError Unit × Ctx :=
  let credential := c.get_credential
  let url := c.object_url toPath
  let fromEnc := percentEncodeNA fromPath
  let source := c.bucket_name_encoded ++ "/" ++ fromEnc
  let headers0 := [("x-goog-copy-source", source)]
  let headers1 := if if_not_exists then headers0 ++ [(VERSION_MATCH, "0")] else headers0
  let sent : SentRequest :=
    { method := "PUT"
      url
      headers := withBearerAuthOpt headers1 credential ++ [("content-length", "0")]
      query := []
      idempotent := some (!if_not_exists) }
  match ctx.step sent with
  | (.ok _, ctx') => (.ok (), ctx')
  | (.error err, ctx') =>
    (.error (match err.status with
      | some 412 => .AlreadyExists toPath err.tag
      | _ => err.toCrate STORE fromEnc), ctx')

/-- The idempotency markers of a context's trace, in dispatch order. -/
def Ctx.idemTrace (c : Ctx) : List (Option Bool) :=
  c.trace.map SentRequest.idempotent

/-- Safety of an etag text node for the quote round trip: it holds none of
the characters whose escape the fixup does not undo. -/
def EtagSafeL (l : List Char) : Prop :=
  ∀ c ∈ l, c ≠ '&' ∧ c ≠ '<' ∧ c ≠ '>' ∧ c ≠ aposChar

instance (l : List Char) : Decidable (EtagSafeL l) := by
  unfold EtagSafeL
  infer_instance

/-- The part entry of the completion document with its etag appearing
literally, as the spec describes the transmitted body. -/
def serializeMultipartPartLiteral (p : MultipartPart) : List Char :=
  "<Part><ETag>".toList ++ p.e_tag.toList ++ "</ETag><PartNumber>".toList ++
    natDigits p.part_number ++ "</PartNumber></Part>".toList

/-- Following the spec: the completion document actually transmitted, with
every part etag appearing literally (quotes unescaped). -/
def completionDocLiteral (parts : List PartId) : List Char :=
  "<CompleteMultipartUpload>".toList ++
    (CompleteMultipartUpload.fromParts parts).part.flatMap serializeMultipartPartLiteral ++
    "</CompleteMultipartUpload>".toList

/-! ### Concrete fixtures shared by witnesses and counterexamples -/

/-- A concrete endpoint configuration with signature-skipping enabled. -/
def cfgEx : GoogleCloudStorageConfig :=
  { base_url := "https://storage.example"
    credentials := ⟨⟨"tok"⟩⟩
    signing_credentials := ⟨"svc@example"⟩
    bucket_name := "bkt"
    retry_config := {}
    client_options := ⟨fun _ => none⟩
    skip_signature := true }

/-- A concrete client over `cfgEx`. -/
def clientEx : GoogleCloudStorageClient := .new cfgEx

/-- A concrete successful write response carrying etag and version headers. -/
def respEx : HttpResponse :=
  { status := 200
    headers := [("etag", "\"tag123\""), (VERSION_HEADER, "7")]
    body := [] }

/-- A concrete signing response whose body carries the base64 signature
`aGk=` (the bytes of "hi"). -/
def respSign : HttpResponse :=
  { status := 200, headers := [], body := "\x7b\"signedBlob\":\"aGk=\"\x7d".toList }

/-! ### Shared lemmas about dispatch bookkeeping -/

theorem Ctx.step_trace (c : Ctx) (s : SentRequest) :
    (c.step s).2.trace = c.trace ++ [s] := by
  rcases c with ⟨w, tr⟩
  cases w <;> rfl

theorem Request.send_ctx (r : Request) (ctx : Ctx) :
    (r.send ctx).2 = (ctx.step r.sentRequest).2 := by
  unfold Request.send
  rcases h : ctx.step r.sentRequest with ⟨res, ctx'⟩
  cases res <;> simp

theorem Request.do_put_ctx (r : Request) (ctx : Ctx) :
    (r.do_put ctx).2 = (ctx.step r.sentRequest).2 := by
  have h2 := Request.send_ctx r ctx
  unfold Request.do_put
  rcases hs : r.send ctx with ⟨res, ctx'⟩
  rw [hs] at h2
  cases res with
  | error e => simpa using h2
  | ok resp =>
    cases hg : get_put_result resp.headers VERSION_HEADER <;> simpa [hg] using h2

theorem Request.do_put_trace (r : Request) (ctx : Ctx) :
    ((r.do_put ctx).2).trace = ctx.trace ++ [r.sentRequest] := by
  rw [Request.do_put_ctx, Ctx.step_trace]

theorem get_put_result_etag (hs : List (String × String)) (vh : String) (pr : PutResult)
    (h : get_put_result hs vh = .ok pr) : ∃ t, pr.e_tag = some t := by
  unfold get_put_result at h
  cases hl : lookupHeader hs "etag" with
  | none => simp only [hl] at h; simp at h
  | some t => simp only [hl] at h; cases h; exact ⟨t, rfl⟩

theorem Request.do_put_etag (r : Request) (ctx : Ctx) (pr : PutResult)
    (h : (r.do_put ctx).1 = .ok pr) : ∃ t, pr.e_tag = some t := by
  unfold Request.do_put at h
  rcases hs : r.send ctx with ⟨res, ctx'⟩
  rw [hs] at h
  cases res with
  | error e => simp at h
  | ok resp =>
    cases hpr : get_put_result resp.headers VERSION_HEADER with
    | error s => simp [hpr] at h
    | ok pr2 =>
      simp [hpr] at h
      subst h
      exact get_put_result_etag _ _ _ hpr

/-! ### Lemmas about the quote-escape fixup -/

theorem replaceQuot_cons_ne (c : Char) (l : List Char) (h : c ≠ '&') :
    replaceQuot (c :: l) = c :: replaceQuot l := by
  rw [replaceQuot.eq_def]
  split
  · rename_i rest heq
    simp_all
  · rename_i c2 rest2 hno heq
    injection heq with h1 h2
    subst h1
    subst h2
    rfl
  · rename_i heq
    simp_all

theorem replaceQuot_append_noamp (l t : List Char) (h : ∀ c ∈ l, c ≠ '&') :
    replaceQuot (l ++ t) = l ++ replaceQuot t := by
  induction l with
  | nil => simp
  | cons c l ih =>
    rw [List.cons_append, replaceQuot_cons_ne c (l ++ t) (h c (by simp)),
      ih (fun c hc => h c (by simp [hc]))]
    rfl

theorem replaceQuot_escape_append (s t : List Char) (h : EtagSafeL s) :
    replaceQuot (xmlEscape s ++ t) = s ++ replaceQuot t := by
  induction s with
  | nil => simp [xmlEscape]
  | cons c s ih =>
    have hc := h c (by simp)
    have hs : EtagSafeL s := fun c2 hc2 => h c2 (by simp [hc2])
    by_cases hq : c = '"'
    · subst hq
      show replaceQuot ((xmlEscapeChar '"' ++ xmlEscape s) ++ t) = _
      have : xmlEscapeChar '"' = ['&', 'q', 'u', 'o', 't', ';'] := by decide
      rw [this]
      simp only [List.cons_append, List.nil_append]
      show '"' :: replaceQuot (xmlEscape s ++ t) = '"' :: (s ++ replaceQuot t)
      rw [ih hs]
    · show replaceQuot ((xmlEscapeChar c ++ xmlEscape s) ++ t) = _
      have hesc : xmlEscapeChar c = [c] := by
        unfold xmlEscapeChar
        rw [if_neg hc.1, if_neg hc.2.1, if_neg hc.2.2.1, if_neg hq, if_neg hc.2.2.2]
      rw [hesc]
      simp only [List.cons_append, List.nil_append]
      rw [replaceQuot_cons_ne c (xmlEscape s ++ t) hc.1, ih hs]

theorem digitChar_ne_amp (n : Nat) : digitChar n ≠ '&' := by
  unfold digitChar
  have hm : n % 10 < 10 := Nat.mod_lt _ (by norm_num)
  generalize hg : n % 10 = m at hm
  interval_cases m <;> decide

theorem natDigitsGo_noamp (fuel : Nat) : ∀ (n : Nat) (acc : List Char),
    (∀ c ∈ acc, c ≠ '&') → ∀ c ∈ natDigitsGo fuel n acc, c ≠ '&' := by
  induction fuel with
  | zero => intro n acc hacc c hc; exact hacc c hc
  | succ fuel ih =>
    intro n acc hacc c hc
    unfold natDigitsGo at hc
    by_cases hn : n < 10
    · rw [if_pos hn] at hc
      rcases List.mem_cons.mp hc with h1 | h2
      · rw [h1]; exact digitChar_ne_amp n
      · exact hacc c h2
    · rw [if_neg hn] at hc
      refine ih (n / 10) (digitChar n :: acc) ?_ c hc
      intro c2 hc2
      rcases List.mem_cons.mp hc2 with h1 | h2
      · rw [h1]; exact digitChar_ne_amp n
      · exact hacc c2 h2

theorem natDigits_noamp (n : Nat) : ∀ c ∈ natDigits n, c ≠ '&' :=
  natDigitsGo_noamp (n + 1) n [] (by intro c hc; cases hc)

theorem snd_mem_of_mem_enumFrom {α : Type} :
    ∀ (l : List α) (k i : Nat) (a : α), (i, a) ∈ l.enumFrom k → a ∈ l := by
  intro l
  induction l with
  | nil => intro k i a h; cases h
  | cons x xs ih =>
    intro k i a h
    rcases List.mem_cons.mp h with h1 | h2
    · injection h1 with _ h1b
      rw [h1b]
      exact List.mem_cons_self x xs
    · exact List.mem_cons_of_mem x (ih (k + 1) i a h2)

theorem snd_mem_of_mem_enum {α : Type} (l : List α) (i : Nat) (a : α)
    (h : (i, a) ∈ l.enum) : a ∈ l :=
  snd_mem_of_mem_enumFrom l 0 i a h

theorem replaceQuot_noamp (l : List Char) (h : ∀ c ∈ l, c ≠ '&') :
    replaceQuot l = l := by
  have h2 := replaceQuot_append_noamp l [] h
  have h0 : replaceQuot [] = [] := rfl
  rw [List.append_nil, h0, List.append_nil] at h2
  exact h2

theorem replaceQuot_parts (ps : List MultipartPart) (tl : List Char)
    (h : ∀ p ∈ ps, EtagSafeL p.e_tag.toList) :
    replaceQuot (ps.flatMap serializeMultipartPart ++ tl) =
      ps.flatMap serializeMultipartPartLiteral ++ replaceQuot tl := by
  induction ps with
  | nil => simp
  | cons p ps ih =>
    have hp := h p (by simp)
    have hps : ∀ p2 ∈ ps, EtagSafeL p2.e_tag.toList := fun p2 h2 => h p2 (by simp [h2])
    simp only [List.flatMap_cons, serializeMultipartPart, serializeMultipartPartLiteral,
      List.append_assoc]
    rw [replaceQuot_append_noamp "<Part><ETag>".toList _ (by decide),
      replaceQuot_escape_append p.e_tag.toList _ hp,
      replaceQuot_append_noamp "</ETag><PartNumber>".toList _ (by decide),
      replaceQuot_append_noamp (natDigits p.part_number) _ (natDigits_noamp _),
      replaceQuot_append_noamp "</PartNumber></Part>".toList _ (by decide),
      ih hps]

theorem replaceQuot_doc (parts : List PartId)
    (h : ∀ p ∈ parts, EtagSafeL p.content_id.toList) :
    replaceQuot (serializeCompleteMultipartUpload (.fromParts parts)) =
      completionDocLiteral parts := by
  have hsafe : ∀ mp ∈ (CompleteMultipartUpload.fromParts parts).part,
      EtagSafeL mp.e_tag.toList := by
    intro mp hmp
    unfold CompleteMultipartUpload.fromParts at hmp
    simp only [List.mem_map] at hmp
    rcases hmp with ⟨⟨i, pid⟩, hmem, hmk⟩
    have hpid : pid ∈ parts := snd_mem_of_mem_enum parts i pid hmem
    rw [← hmk]
    exact h pid hpid
  unfold serializeCompleteMultipartUpload completionDocLiteral
  rw [List.append_assoc, replaceQuot_append_noamp "<CompleteMultipartUpload>".toList _ (by decide),
    replaceQuot_parts _ _ hsafe,
    replaceQuot_noamp "</CompleteMultipartUpload>".toList (by decide)]
  simp [List.append_assoc]

/-! ### Claim theorems -/

/-! ### C1: bearer auth on the put-style builder -/

/-- C1 counterexample: with signature-skipping enabled the skip-aware
credential lookup does return `none`, yet a request executed through the
put-style builder is still dispatched with a bearer-auth header taken from
the provider — it is not sent unauthenticated. -/
theorem c1_counterexample :
    cfgEx.skip_signature = true ∧
    cfgEx.get_credential = none ∧
    (((clientEx.request "PUT" "obj").send ⟨[], []⟩).2).trace.map SentRequest.headers =
      [[("authorization", "Bearer tok")]] := by
  refine ⟨rfl, rfl, rfl⟩

/-- C1 (amended): execution through the put-style builder resolves the
credential directly from the provider and always attaches bearer auth,
regardless of `skip_signature`; the skip-aware lookup returning `none` is
`GoogleCloudStorageConfig::get_credential`, which the put-style builder does
not consult. -/
theorem c1_send_always_attaches_bearer (r : Request) (ctx : Ctx)
    (cfg : GoogleCloudStorageConfig) :
    ((r.send ctx).2).trace = ctx.trace ++ [r.sentRequest] ∧
    ("authorization", "Bearer " ++ r.config.credentials.get_credential.bearer) ∈
      r.sentRequest.headers ∧
    (cfg.skip_signature = true → cfg.get_credential = none) ∧
    (cfg.skip_signature = false →
      cfg.get_credential = some cfg.credentials.get_credential) := by
  refine ⟨?_, ?_, ?_, ?_⟩
  · rw [Request.send_ctx, Ctx.step_trace]
  · simp [Request.sentRequest]
  · intro h
    simp [GoogleCloudStorageConfig.get_credential, h]
  · intro h
    simp [GoogleCloudStorageConfig.get_credential, h]

/-- Witness for the amended C1 at concrete inputs. -/
theorem c1_witness :
    (((clientEx.request "PUT" "obj").send ⟨[], []⟩).2).trace =
      [] ++ [(clientEx.request "PUT" "obj").sentRequest] ∧
    ("authorization", "Bearer " ++
        (clientEx.request "PUT" "obj").config.credentials.get_credential.bearer) ∈
      (clientEx.request "PUT" "obj").sentRequest.headers ∧
    (cfgEx.skip_signature = true → cfgEx.get_credential = none) ∧
    (cfgEx.skip_signature = false →
      cfgEx.get_credential = some cfgEx.credentials.get_credential) :=
  c1_send_always_attaches_bearer (clientEx.request "PUT" "obj") ⟨[], []⟩ cfgEx

/-! ### C2: zero-part multipart completion -/

/-- C2 counterexample: a failing cleanup is not best-effort — its error
aborts the zero-part completion, the fallback put is never dispatched
(the trace holds only the DELETE), and no `PutResult` is produced. -/
theorem c2_counterexample :
    (clientEx.multipart_complete "p" "mid" [] ⟨[.error ⟨some 500, "boom"⟩], []⟩).1 =
      .error (.Other STORE "p" "boom") ∧
    ((clientEx.multipart_complete "p" "mid" [] ⟨[.error ⟨some 500, "boom"⟩], []⟩).2).trace.map
      SentRequest.method = ["DELETE"] := by
  refine ⟨rfl, rfl⟩

/-- C2 (amended): completing a multipart session with zero parts first runs
the session cleanup and propagates its failure; only when the cleanup
succeeds does it run an ordinary `Overwrite` put of an empty payload for the
same path, returning that put's outcome unchanged. -/
theorem c2_zero_parts_fallback (c : GoogleCloudStorageClient) (path : Path)
    (multipart_id : String) (ctx : Ctx) :
    ((c.multipart_cleanup path multipart_id ctx).1 = .ok () →
      c.multipart_complete path multipart_id [] ctx =
        c.put path Payload.new default (c.multipart_cleanup path multipart_id ctx).2) ∧
    (∀ e, (c.multipart_cleanup path multipart_id ctx).1 = .error e →
      c.multipart_complete path multipart_id [] ctx =
        (.error e, (c.multipart_cleanup path multipart_id ctx).2)) ∧
    (default : PutOptions).mode = .Overwrite ∧
    Payload.new.bytes = [] := by
  refine ⟨?_, ?_, rfl, rfl⟩
  · intro hok
    unfold GoogleCloudStorageClient.multipart_complete
    rcases h : c.multipart_cleanup path multipart_id ctx with ⟨res, ctx'⟩
    rw [h] at hok
    simp only at hok
    cases res with
    | error e => simp at hok
    | ok u => simp
  · intro e herr
    unfold GoogleCloudStorageClient.multipart_complete
    rcases h : c.multipart_cleanup path multipart_id ctx with ⟨res, ctx'⟩
    rw [h] at herr
    simp only at herr
    cases res with
    | error e2 =>
      cases herr
      simp
    | ok u => simp at herr

/-- Witness for the amended C2: with a delivered cleanup response the
zero-part completion equals the empty overwrite put on the rest of the
world. -/
theorem c2_witness :
    ((clientEx.multipart_cleanup "p" "mid" ⟨[.ok respEx, .ok respEx], []⟩).1 = .ok () →
      clientEx.multipart_complete "p" "mid" [] ⟨[.ok respEx, .ok respEx], []⟩ =
        clientEx.put "p" Payload.new default
          (clientEx.multipart_cleanup "p" "mid" ⟨[.ok respEx, .ok respEx], []⟩).2) ∧
    (∀ e, (clientEx.multipart_cleanup "p" "mid" ⟨[.ok respEx, .ok respEx], []⟩).1 =
        .error e →
      clientEx.multipart_complete "p" "mid" [] ⟨[.ok respEx, .ok respEx], []⟩ =
        (.error e,
          (clientEx.multipart_cleanup "p" "mid" ⟨[.ok respEx, .ok respEx], []⟩).2)) ∧
    (default : PutOptions).mode = .Overwrite ∧
    Payload.new.bytes = [] :=
  c2_zero_parts_fallback clientEx "p" "mid" ⟨[.ok respEx, .ok respEx], []⟩

/-! ### C7 and C10: copy-request error mapping -/

/-- C7: a conditional copy carries the generation-must-equal-0 header, a 412
failure is remapped to already-exists keyed by the destination, and any
other failing status passes through the generic retry-error mapping tagged
with the percent-encoded source. -/
theorem c7_conditional_copy (c : GoogleCloudStorageClient) (f t : Path)
    (e1 e2 : RetryError) (s : Nat) (rest1 rest2 : List WireResult)
    (tr1 tr2 : List SentRequest)
    (h1 : e1.status = some 412) (h2 : e2.status = some s) (hs : s ≠ 412) :
    (c.copy_request f t true ⟨.error e1 :: rest1, tr1⟩).1 =
      .error (.AlreadyExists t e1.tag) ∧
    (c.copy_request f t true ⟨.error e2 :: rest2, tr2⟩).1 =
      .error (e2.toCrate STORE (percentEncodeNA f)) ∧
    (∀ ctx : Ctx, ((c.copy_request f t true ctx).2).trace.map SentRequest.headers =
      ctx.trace.map SentRequest.headers ++
        [withBearerAuthOpt
          [("x-goog-copy-source", c.bucket_name_encoded ++ "/" ++ percentEncodeNA f),
            (VERSION_MATCH, "0")] c.get_credential ++ [("content-length", "0")]]) ∧
    (VERSION_MATCH, "0") ∈
      withBearerAuthOpt
        [("x-goog-copy-source", c.bucket_name_encoded ++ "/" ++ percentEncodeNA f),
          (VERSION_MATCH, "0")] c.get_credential ++ [("content-length", "0")] := by
  refine ⟨?_, ?_, ?_, ?_⟩
  · unfold GoogleCloudStorageClient.copy_request
    simp [Ctx.step, h1]
  · unfold GoogleCloudStorageClient.copy_request
    simp only [Ctx.step]
    rw [h2]
    split
    · rename_i heq
      cases heq
      exact absurd rfl hs
    · rfl
  · intro ctx
    unfold GoogleCloudStorageClient.copy_request
    rcases ctx with ⟨w, tr⟩
    cases w with
    | nil => simp [Ctx.step]
    | cons hd tl => cases hd <;> simp [Ctx.step]
  · cases hc : c.get_credential <;> simp [withBearerAuthOpt]

/-- Witness for C7 at concrete inputs. -/
theorem c7_witness :
    (clientEx.copy_request "a" "b" true ⟨[.error ⟨some 412, "p"⟩], []⟩).1 =
      .error (.AlreadyExists "b" "p") ∧
    (clientEx.copy_request "a" "b" true ⟨[.error ⟨some 404, "q"⟩], []⟩).1 =
      .error (RetryError.toCrate STORE (percentEncodeNA "a") ⟨some 404, "q"⟩) ∧
    (∀ ctx : Ctx,
      ((clientEx.copy_request "a" "b" true ctx).2).trace.map SentRequest.headers =
      ctx.trace.map SentRequest.headers ++
        [withBearerAuthOpt
          [("x-goog-copy-source", clientEx.bucket_name_encoded ++ "/" ++ percentEncodeNA "a"),
            (VERSION_MATCH, "0")] clientEx.get_credential ++ [("content-length", "0")]]) ∧
    (VERSION_MATCH, "0") ∈
      withBearerAuthOpt
        [("x-goog-copy-source", clientEx.bucket_name_encoded ++ "/" ++ percentEncodeNA "a"),
          (VERSION_MATCH, "0")] clientEx.get_credential ++ [("content-length", "0")] :=
  c7_conditional_copy clientEx "a" "b" ⟨some 412, "p"⟩ ⟨some 404, "q"⟩ 404 [] [] [] []
    rfl rfl (by decide)

/-- C10: the 412-to-already-exists remap applies for both conditional and
unconditional copies, and every non-412 failure is tagged with the
percent-encoded source path, not the destination. -/
theorem c10_copy_412_regardless (c : GoogleCloudStorageClient) (f t : Path)
    (b : Bool) (e1 e2 : RetryError) (s : Nat) (rest1 rest2 : List WireResult)
    (tr1 tr2 : List SentRequest)
    (h1 : e1.status = some 412) (h2 : e2.status = some s) (hs : s ≠ 412) :
    (c.copy_request f t b ⟨.error e1 :: rest1, tr1⟩).1 =
      .error (.AlreadyExists t e1.tag) ∧
    (c.copy_request f t b ⟨.error e2 :: rest2, tr2⟩).1 =
      .error (e2.toCrate STORE (percentEncodeNA f)) := by
  constructor
  · unfold GoogleCloudStorageClient.copy_request
    simp [Ctx.step, h1]
  · unfold GoogleCloudStorageClient.copy_request
    simp only [Ctx.step]
    rw [h2]
    split
    · rename_i heq
      cases heq
      exact absurd rfl hs
    · rfl

/-- Witness for C10: an unconditional copy receiving 412 also reports
already-exists on the destination. -/
theorem c10_witness :
    (clientEx.copy_request "a" "b" false ⟨[.error ⟨some 412, "p"⟩], []⟩).1 =
      .error (.AlreadyExists "b" "p") ∧
    (clientEx.copy_request "a" "b" false ⟨[.error ⟨some 500, "q"⟩], []⟩).1 =
      .error (RetryError.toCrate STORE (percentEncodeNA "a") ⟨some 500, "q"⟩) :=
  c10_copy_412_regardless clientEx "a" "b" false ⟨some 412, "p"⟩ ⟨some 500, "q"⟩ 500
    [] [] [] [] rfl rfl (by decide)

/-! ### C3: Create-mode precondition remap -/

/-- C3: a `Create`-mode put whose execution fails with a precondition error
is remapped to already-exists with the same path and source — end to end, a
412 retry failure surfaces as `AlreadyExists` — while every other
(mode, outcome) combination, in particular an `Update`-mode precondition
failure, passes through unchanged. -/
theorem c3_create_precondition_remap
    (p s ver : String) (uv : UpdateVersion) (r : Except CrateError PutResult)
    (hnp : ∀ q t, r ≠ .error (.Precondition q t)) :
    putRemap .Create (.error (.Precondition p s)) = .error (.AlreadyExists p s) ∧
    putRemap .Overwrite r = r ∧
    putRemap (.Update uv) r = r ∧
    putRemap .Create r = r ∧
    (∀ (c : GoogleCloudStorageClient) (path : Path) (payload : Payload)
      (attrs : Attributes) (exts : List String) (e : RetryError)
      (rest : List WireResult) (ctx : Ctx),
      ctx.world = .error e :: rest → e.status = some 412 →
      (c.put path payload ⟨.Create, attrs, exts⟩ ctx).1 =
        .error (.AlreadyExists path e.tag) ∧
      (c.put path payload ⟨.Update ⟨uv.e_tag, some ver⟩, attrs, exts⟩ ctx).1 =
        .error (.Precondition path e.tag)) := by
  refine ⟨rfl, ?_, ?_, ?_, ?_⟩
  · cases r with
    | ok v => rfl
    | error e => cases e <;> rfl
  · cases r with
    | ok v => rfl
    | error e => cases e <;> rfl
  · cases r with
    | ok v => rfl
    | error e =>
      cases e with
      | Precondition q t => exact absurd rfl (hnp q t)
      | _ => rfl
  · intro c path payload attrs exts e rest ctx hw h412
    rcases ctx with ⟨w, tr⟩
    simp only at hw
    subst hw
    constructor <;>
      simp [GoogleCloudStorageClient.put, putModeBuilder, putRemap, Request.do_put,
        Request.send, Ctx.step, RetryError.toCrate, h412, Request.with_payload,
        Request.with_attributes, Request.with_extensions, Request.header,
        Request.withIdempotent, GoogleCloudStorageClient.request]

/-- Witness for C3 at concrete inputs. -/
theorem c3_witness :
    (putRemap .Create (.error (.Precondition "p" "s")) = .error (.AlreadyExists "p" "s") ∧
     putRemap .Overwrite (.ok ⟨none, none⟩) = .ok ⟨none, none⟩ ∧
     putRemap (.Update ⟨none, some "9"⟩) (.ok ⟨none, none⟩) = .ok ⟨none, none⟩ ∧
     putRemap .Create (.ok ⟨none, none⟩) = .ok ⟨none, none⟩ ∧
     (∀ (c : GoogleCloudStorageClient) (path : Path) (payload : Payload)
       (attrs : Attributes) (exts : List String) (e : RetryError)
       (rest : List WireResult) (ctx : Ctx),
       ctx.world = .error e :: rest → e.status = some 412 →
       (c.put path payload ⟨.Create, attrs, exts⟩ ctx).1 =
         .error (.AlreadyExists path e.tag) ∧
       (c.put path payload ⟨.Update ⟨none, some "7"⟩, attrs, exts⟩ ctx).1 =
         .error (.Precondition path e.tag))) :=
  c3_create_precondition_remap "p" "s" "7" ⟨none, some "9"⟩ (.ok ⟨none, none⟩)
    (fun _ _ h => by cases h)

/-! ### C4: Update without a version fails locally -/

/-- C4: an `Update`-mode put whose update token carries no version fails
with the `MissingVersion` error and leaves the context untouched: no
request is dispatched and no credential is consulted. -/
theorem c4_update_missing_version (c : GoogleCloudStorageClient) (path : Path)
    (payload : Payload) (attrs : Attributes) (exts : List String)
    (etag : Option String) (ctx : Ctx) :
    c.put path payload ⟨.Update ⟨etag, none⟩, attrs, exts⟩ ctx =
      (.error (.Generic STORE .MissingVersion), ctx) := by
  simp [GoogleCloudStorageClient.put, putModeBuilder]

/-! ### C5: escape fixup round trip -/

/-- C5: for a non-empty parts list whose etags avoid the other escaped
characters, the body sent by `multipart_complete` is the XML serialization
with every `&quot;` replaced by a literal quote, and that fixup undoes the
serializer's quote escaping: the transmitted document carries each etag
literally, double quotes included. -/
theorem c5_escape_fixup (c : GoogleCloudStorageClient) (path : Path)
    (multipart_id : String) (parts : List PartId) (ctx : Ctx)
    (hne : parts ≠ [])
    (hsafe : ∀ p ∈ parts, EtagSafeL p.content_id.toList) :
    ((c.multipart_complete path multipart_id parts ctx).2).trace.map
      SentRequest.textBody =
      ctx.trace.map SentRequest.textBody ++
        [some (replaceQuot (serializeCompleteMultipartUpload (.fromParts parts)))] ∧
    replaceQuot (serializeCompleteMultipartUpload (.fromParts parts)) =
      completionDocLiteral parts := by
  constructor
  · cases parts with
    | nil => exact absurd rfl hne
    | cons p ps =>
      rcases ctx with ⟨w, tr⟩
      unfold GoogleCloudStorageClient.multipart_complete
      cases w with
      | nil => simp [Ctx.step]
      | cons hd tl =>
        cases hd with
        | error e => simp [Ctx.step]
        | ok resp =>
          cases hpb : parseCompleteMultipartResult resp.body <;> simp [Ctx.step, hpb]
  · exact replaceQuot_doc parts hsafe

/-- Witness for C5: one part with the quoted etag "e1". -/
theorem c5_witness :
    ((clientEx.multipart_complete "p" "mid" [⟨"\"e1\""⟩] ⟨[], []⟩).2).trace.map
      SentRequest.textBody =
      List.map SentRequest.textBody [] ++
        [some (replaceQuot (serializeCompleteMultipartUpload
          (.fromParts [⟨"\"e1\""⟩])))] ∧
    replaceQuot (serializeCompleteMultipartUpload (.fromParts [⟨"\"e1\""⟩])) =
      completionDocLiteral [⟨"\"e1\""⟩] :=
  c5_escape_fixup clientEx "p" "mid" [⟨"\"e1\""⟩] ⟨[], []⟩ (by decide) (by decide)

/-! ### C6: idempotency marker handed to the retry engine -/

/-- C6: the idempotency flag dispatched with each request is: `true` for
`Overwrite` puts, part uploads, and unconditional copies; `false` for
`Create` puts, `Update` puts, and copies requested with `if_not_exists`. -/
theorem c6_idempotency_flags (c : GoogleCloudStorageClient) (path : Path)
    (payload : Payload) (attrs : Attributes) (exts : List String)
    (uv : Option String) (ver : String) (uid : String) (idx : Nat)
    (f t : Path) (ctx : Ctx) :
    ((c.put path payload ⟨.Overwrite, attrs, exts⟩ ctx).2).idemTrace =
      ctx.idemTrace ++ [some true] ∧
    ((c.put path payload ⟨.Create, attrs, exts⟩ ctx).2).idemTrace =
      ctx.idemTrace ++ [some false] ∧
    ((c.put path payload ⟨.Update ⟨uv, some ver⟩, attrs, exts⟩ ctx).2).idemTrace =
      ctx.idemTrace ++ [some false] ∧
    ((c.put_part path uid idx payload ctx).2).idemTrace =
      ctx.idemTrace ++ [some true] ∧
    ((c.copy_request f t false ctx).2).idemTrace =
      ctx.idemTrace ++ [some true] ∧
    ((c.copy_request f t true ctx).2).idemTrace =
      ctx.idemTrace ++ [some false] := by
  refine ⟨?_, ?_, ?_, ?_, ?_, ?_⟩
  · simp only [GoogleCloudStorageClient.put, putModeBuilder, Ctx.idemTrace]
    rw [Request.do_put_trace]
    simp [Request.sentRequest, Request.withIdempotent]
  · simp only [GoogleCloudStorageClient.put, putModeBuilder, Ctx.idemTrace]
    rw [Request.do_put_trace]
    simp [Request.sentRequest, Request.header, Request.with_extensions,
      Request.with_attributes, Request.with_payload, GoogleCloudStorageClient.request]
  · simp only [GoogleCloudStorageClient.put, putModeBuilder, Ctx.idemTrace]
    rw [Request.do_put_trace]
    simp [Request.sentRequest, Request.header, Request.with_extensions,
      Request.with_attributes, Request.with_payload, GoogleCloudStorageClient.request]
  · unfold GoogleCloudStorageClient.put_part
    dsimp only
    rcases h : (((c.request "PUT" path).with_payload payload).queryAdd
      [("partNumber", natDigitsStr (idx + 1)), ("uploadId", uid)]).withIdempotent true
      |>.do_put ctx with ⟨res, ctx'⟩
    have ht := Request.do_put_trace
      ((((c.request "PUT" path).with_payload payload).queryAdd
        [("partNumber", natDigitsStr (idx + 1)), ("uploadId", uid)]).withIdempotent true) ctx
    rw [h] at ht
    have hidem : ctx'.idemTrace = ctx.idemTrace ++ [some true] := by
      simp only [Ctx.idemTrace]
      rw [ht]
      simp [Request.sentRequest, Request.withIdempotent]
    cases res with
    | error e => simpa using hidem
    | ok result => cases hre : result.e_tag <;> simpa [hre] using hidem
  · unfold GoogleCloudStorageClient.copy_request
    rcases ctx with ⟨w, tr⟩
    cases w with
    | nil => simp [Ctx.step, Ctx.idemTrace]
    | cons hd tl => cases hd <;> simp [Ctx.step, Ctx.idemTrace]
  · unfold GoogleCloudStorageClient.copy_request
    rcases ctx with ⟨w, tr⟩
    cases w with
    | nil => simp [Ctx.step, Ctx.idemTrace]
    | cons hd tl => cases hd <;> simp [Ctx.step, Ctx.idemTrace]

/-! ### C8: put_part builds the PartId from the response etag -/

/-- C8: a successful `put_part` returns a `PartId` whose `content_id` is the
etag of the part-upload response, and the missing-etag unwrap can never fire:
`put_part` never panics, because a successful execution always carries an
etag. -/
theorem c8_put_part_etag (c : GoogleCloudStorageClient) (path : Path)
    (uid : String) (idx : Nat) (data : Payload) (ctx : Ctx)
    (resp : HttpResponse) (t : String) (rest : List WireResult)
    (hw : ctx.world = .ok resp :: rest)
    (he : lookupHeader resp.headers "etag" = some t) :
    (c.put_part path uid idx data ctx).1 = .value (.ok ⟨t⟩) ∧
    (∀ ctx₂ : Ctx, (c.put_part path uid idx data ctx₂).1 ≠ .panicked) := by
  constructor
  · rcases ctx with ⟨w, tr⟩
    simp only at hw
    subst hw
    simp [GoogleCloudStorageClient.put_part, Request.do_put, Request.send,
      Ctx.step, get_put_result, he]
  · intro ctx₂ hcontra
    unfold GoogleCloudStorageClient.put_part at hcontra
    dsimp only at hcontra
    rcases hdp : (((c.request "PUT" path).with_payload data).queryAdd
      [("partNumber", natDigitsStr (idx + 1)), ("uploadId", uid)]).withIdempotent true
      |>.do_put ctx₂ with ⟨res, ctx'⟩
    rw [hdp] at hcontra
    cases res with
    | error e => simp at hcontra
    | ok result =>
      have hre := Request.do_put_etag _ ctx₂ result (by rw [hdp])
      rcases hre with ⟨t2, ht2⟩
      simp [ht2] at hcontra

/-- Witness for C8 at concrete inputs. -/
theorem c8_witness :
    (clientEx.put_part "p" "mid" 0 ⟨[1, 2]⟩ ⟨[.ok respEx], []⟩).1 =
      .value (.ok ⟨"\"tag123\""⟩) ∧
    (∀ ctx₂ : Ctx,
      (clientEx.put_part "p" "mid" 0 ⟨[1, 2]⟩ ctx₂).1 ≠ .panicked) :=
  c8_put_part_etag clientEx "p" "mid" 0 ⟨[1, 2]⟩ ⟨[.ok respEx], []⟩ respEx
    "\"tag123\"" [] rfl rfl

/-! ### C9: sign_blob request and response handling -/

/-- C9: `sign_blob` sends a JSON body whose payload is the base64 encoding
of the input bytes, marks the request idempotent, returns the hex encoding
of the base64-decoded signature on success, and turns a base64 decode
failure into the fatal signature-decode error after exactly one dispatched
request (no retry). -/
theorem c9_sign_blob (c : GoogleCloudStorageClient) (input : List Nat)
    (email : String) (resp : HttpResponse) (sig : List Char)
    (rest : List WireResult) (tr : List SentRequest)
    (hp : parseSignBlobResponse resp.body = some sig) :
    ((c.sign_blob input email ⟨.ok resp :: rest, tr⟩).2).trace.map
      SentRequest.jsonBody =
      tr.map SentRequest.jsonBody ++ [some ⟨base64Encode input⟩] ∧
    ((c.sign_blob input email ⟨.ok resp :: rest, tr⟩).2).idemTrace =
      tr.map SentRequest.idempotent ++ [some true] ∧
    (∀ bytes, base64Decode sig = some bytes →
      (c.sign_blob input email ⟨.ok resp :: rest, tr⟩).1 = .ok (hex_encode bytes)) ∧
    (base64Decode sig = none →
      (c.sign_blob input email ⟨.ok resp :: rest, tr⟩).1 =
        .error (.Generic STORE (.InvalidSignBlobSignature "decode failure")) ∧
      ((c.sign_blob input email ⟨.ok resp :: rest, tr⟩).2).trace.length =
        tr.length + 1) := by
  refine ⟨?_, ?_, ?_, ?_⟩
  · unfold GoogleCloudStorageClient.sign_blob
    cases hb : base64Decode sig <;> simp [Ctx.step, hp, hb, Ctx.idemTrace]
  · unfold GoogleCloudStorageClient.sign_blob
    cases hb : base64Decode sig <;> simp [Ctx.step, hp, hb, Ctx.idemTrace]
  · intro bytes hb
    unfold GoogleCloudStorageClient.sign_blob
    simp [Ctx.step, hp, hb]
  · intro hb
    unfold GoogleCloudStorageClient.sign_blob
    simp [Ctx.step, hp, hb]

/-- Witness for C9 at concrete inputs. -/
theorem c9_witness :
    ((clientEx.sign_blob [104, 105] "svc@example" ⟨[.ok respSign], []⟩).2).trace.map
      SentRequest.jsonBody =
      List.map SentRequest.jsonBody [] ++ [some ⟨base64Encode [104, 105]⟩] ∧
    ((clientEx.sign_blob [104, 105] "svc@example" ⟨[.ok respSign], []⟩).2).idemTrace =
      List.map SentRequest.idempotent [] ++ [some true] ∧
    (∀ bytes, base64Decode "aGk=".toList = some bytes →
      (clientEx.sign_blob [104, 105] "svc@example" ⟨[.ok respSign], []⟩).1 =
        .ok (hex_encode bytes)) ∧
    (base64Decode "aGk=".toList = none →
      (clientEx.sign_blob [104, 105] "svc@example" ⟨[.ok respSign], []⟩).1 =
        .error (.Generic STORE (.InvalidSignBlobSignature "decode failure")) ∧
      ((clientEx.sign_blob [104, 105] "svc@example" ⟨[.ok respSign], []⟩).2).trace.length =
        List.length ([] : List SentRequest) + 1) :=
  c9_sign_blob clientEx [104, 105] "svc@example" respSign "aGk=".toList [] [] rfl

end Gcs
